import Mathlib

/-!
Shallow embedding of `playwright_web_scrapping.py`.

Browser interactions (navigation, DOM queries, in-page `evaluate` calls,
network probes, screenshots) are modelled as explicit inputs describing the
outcome the driver would deliver: each element carries the attribute values a
`get_attribute` call would return, the geometry an `evaluate` call would
compute, and tags for the failure modes the Python code catches.  The pure
decision logic (staleness test, zone tests, size thresholds, the meaningfulness
conjunction, the crawl loop) is translated line by line from the source.
-/

namespace PWScrap

/-- Geometry data that the in-page script reads for one element:
`getBoundingClientRect()` fields together with
`document.documentElement.scrollHeight` and `window.innerHeight`.
Rationals stand in for the page's pixel coordinates. -/
structure ElementGeometry where
  top : Rat
  bottom : Rat
  left : Rat
  width : Rat
  height : Rat
  documentHeight : Rat
  viewportHeight : Rat
deriving DecidableEq

/-- `rect.top < viewportHeight * 0.1` — the header-zone test of the in-page
script in `is_header_footer_logo`. -/
def isTopSection (g : ElementGeometry) : Bool :=
  decide (g.top < g.viewportHeight * (1 / 10))

/-- `rect.bottom > documentHeight - viewportHeight * 0.1` — the footer-zone
test of the in-page script in `is_header_footer_logo`. -/
def isBottomSection (g : ElementGeometry) : Bool :=
  decide (g.bottom > g.documentHeight - g.viewportHeight * (1 / 10))

/-- `is_header_footer_logo(image)`. The argument is the outcome of the
`image.evaluate` call: `some g` when the script ran on geometry `g`, `none`
when the call raised (the `except` branch returns `None, None, False`).
On success Python returns `(is_header, is_footer, True)` when
`is_header or is_footer` holds and `(is_header, is_footer, False)` otherwise. -/
def is_header_footer_logo (geo : Option ElementGeometry) :
    Option Bool × Option Bool × Bool :=
  match geo with
  | none => (none, none, false)
  | some g =>
    let is_header := isTopSection g
    let is_footer := isBottomSection g
    if is_header || is_footer then (some is_header, some is_footer, true)
    else (some is_header, some is_footer, false)

/-- Outcome of the `page.evaluate` HEAD-probe in `check_file_image_size`:
the fetch succeeded and the `Content-Length` header parsed to an integer
(`headerValue`), the header was absent so `parseInt('0')` produced `0`
(`headerAbsent`), the in-page `fetch` threw and the script's `catch` returned
`0` (`fetchFail`), or the `evaluate` call itself raised on the Python side
(`evalFail`). -/
inductive FetchProbe where
  | headerValue : Int → FetchProbe
  | headerAbsent : FetchProbe
  | fetchFail : FetchProbe
  | evalFail : FetchProbe
deriving DecidableEq

/-- The value the in-page script of `check_file_image_size` hands back to
Python: a number unless the `evaluate` call itself raised. -/
def jsProbeSize : FetchProbe → Option Int
  | FetchProbe.headerValue n => some n
  | FetchProbe.headerAbsent => some 0
  | FetchProbe.fetchFail => some 0
  | FetchProbe.evalFail => none

/-- `check_file_image_size(page, src)`: returns
`(response_size, response_size > 10240)` when the `evaluate` call succeeds and
`(None, False)` when it raises (the `except` branch). -/
def check_file_image_size (p : FetchProbe) : Option Int × Bool :=
  match jsProbeSize p with
  | some response_size => (some response_size, decide (response_size > 10240))
  | none => (none, false)

/-- Whitespace CPython's `int(str)` strips around the number. -/
def isPySpace (c : Char) : Bool :=
  c = ' ' || c = '\t' || c = '\n' || c = '\r' || c = '\x0b' || c = '\x0c'

/-- Both-ends whitespace strip on the character list of a string. -/
def pyTrimChars (l : List Char) : List Char :=
  ((l.dropWhile isPySpace).reverse.dropWhile isPySpace).reverse

/-- Value of a list of decimal digit characters. -/
def digitsVal (l : List Char) : Nat :=
  l.foldl (fun acc c => acc * 10 + (c.toNat - 48)) 0

/-- Models CPython `int(s)` on the characters of an attribute string:
surrounding whitespace is ignored, then an optional sign followed by decimal
digits. Returns `none` where `int(s)` raises `ValueError`. -/
def pyIntChars (l : List Char) : Option Int :=
  match pyTrimChars l with
  | [] => none
  | c :: rest =>
    if c = '+' then
      if !rest.isEmpty && rest.all (fun d => d.isDigit) then
        some (Int.ofNat (digitsVal rest))
      else none
    else if c = '-' then
      if !rest.isEmpty && rest.all (fun d => d.isDigit) then
        some (-(Int.ofNat (digitsVal rest)))
      else none
    else
      if (c :: rest).all (fun d => d.isDigit) then
        some (Int.ofNat (digitsVal (c :: rest)))
      else none

/-- `int(s)` on an attribute string. -/
def pyInt (s : String) : Option Int :=
  pyIntChars s.data

/-- Python truthiness of an optional attribute string: `not x` holds exactly
when the attribute is absent (`None`) or the empty string. -/
def attrTruthy (s : Option String) : Bool :=
  match s with
  | none => false
  | some t => !decide (t = "")

/-- `check_image_size(image)`: reads the declared `width` and `height`
attributes; returns `(None, None, False)` if either is missing/empty or fails
`int()` conversion, `(width, height, True)` if both parse and both exceed 100,
and `(None, None, False)` otherwise. -/
def check_image_size (widthAttr heightAttr : Option String) :
    Option Int × Option Int × Bool :=
  if !attrTruthy widthAttr || !attrTruthy heightAttr then (none, none, false)
  else
    match pyInt ((widthAttr).getD ("")), pyInt ((heightAttr).getD ("")) with
    | some width, some height =>
      if width > 100 && height > 100 then (some width, some height, true)
      else (none, none, false)
    | _, _ => (none, none, false)

/-- One `<img>` element as the driver would present it to
`is_meaningful_image`: its attribute values, the outcome of the geometry
`evaluate`, the outcome of the HEAD probe, and the screenshot path
`save_image_screenshot` would produce for it (`none` when both capture tiers
fail). -/
structure ImgElement where
  src : Option String
  alt : Option String
  geometry : Option ElementGeometry
  sizeProbe : FetchProbe
  widthAttr : Option String
  heightAttr : Option String
  shot : Option String
deriving DecidableEq

/-- The `ScrapedImage` dataclass. Fields that the code can leave as `None`
despite a non-optional annotation (`is_header`, `is_footer`, `file_size`) are
typed `Option` to record the values actually assigned at runtime. -/
structure ScrapedImage where
  src : String
  url : String
  alt : Option String
  is_header : Option Bool
  is_footer : Option Bool
  is_logo : Bool
  file_size : Option Int
  is_large_file : Bool
  width : Option Int
  height : Option Int
  has_image_shape : Bool
  is_meaningful : Bool
  screenshot_path : Option String
deriving DecidableEq

/-- `is_meaningful_image(image, page)`: skips the element (`None`) when the
`src` attribute is falsy, otherwise builds a `ScrapedImage`, fills the zone
flags, the file-size flags and the declared-shape flags, and sets
`is_meaningful = not is_logo and is_large_file and has_image_shape`. -/
def is_meaningful_image (image : ImgElement) (pageUrl : String) :
    Option ScrapedImage :=
  if !attrTruthy image.src then none
  else
    let src := (image.src).getD ("")
    let hfl := is_header_footer_logo image.geometry
    let fsz := check_file_image_size image.sizeProbe
    let shp := check_image_size image.widthAttr image.heightAttr
    some
      { src := src
        url := pageUrl
        alt := image.alt
        is_header := hfl.1
        is_footer := hfl.2.1
        is_logo := hfl.2.2
        file_size := fsz.1
        is_large_file := fsz.2
        width := shp.1
        height := shp.2.1
        has_image_shape := shp.2.2
        is_meaningful := !hfl.2.2 && fsz.2 && shp.2.2
        screenshot_path := none }

/-- The `ScrapedSVG` dataclass. `is_header`/`is_footer` are `Option Bool`
because the img-tag source copies the possibly-`None` outputs of
`is_header_footer_logo` into them. -/
structure ScrapedSVG where
  url : String
  is_inline : Bool
  content : Option String
  src : Option String
  width : Option Int
  height : Option Int
  is_header : Option Bool
  is_footer : Option Bool
  is_logo : Bool
  screenshot_path : Option String
deriving DecidableEq

/-- `s.isdigit()`: non-empty and all decimal digits. -/
def pyIsDigit (s : String) : Bool :=
  !s.data.isEmpty && s.data.all (fun c => c.isDigit)

/-- Models `int(s) if s and s.isdigit() else None` as used for SVG
width/height attributes. -/
def svgDim (s : Option String) : Option Int :=
  match s with
  | none => none
  | some t =>
    if attrTruthy (some t) && pyIsDigit t then some (Int.ofNat (digitsVal t.data))
    else none

/-- One inline `<svg>` element: its attributes, `outerHTML`, the geometry the
position `evaluate` would read, the screenshot outcome, and whether the
processing of this element raised (in which case the `except` branch skips
it). -/
structure InlineSvgEl where
  widthAttr : Option String
  heightAttr : Option String
  content : String
  geometry : ElementGeometry
  shot : Option String
  ok : Bool
deriving DecidableEq

/-- The position script run on an inline SVG:
`isHeader`, `isFooter`, and the logo heuristic
`rect.width < 200 && rect.height < 100 && (rect.top < vh*0.2 || rect.left < vh*0.2)`. -/
def svgPositionData (g : ElementGeometry) : Bool × Bool × Bool :=
  (decide (g.top < g.viewportHeight * (1 / 10)),
   decide (g.bottom > g.documentHeight - g.viewportHeight * (1 / 10)),
   decide (g.width < 200) && decide (g.height < 100) &&
     (decide (g.top < g.viewportHeight * (2 / 10)) ||
      decide (g.left < g.viewportHeight * (2 / 10))))

/-- The record built for one inline `<svg>` element, `none` when the
element's processing raised and the loop's `except` branch skipped it. -/
def inlineSvgRecord (pageUrl : String) (e : InlineSvgEl) : Option ScrapedSVG :=
  if !e.ok then none
  else
    let pd := svgPositionData e.geometry
    some
      { url := pageUrl
        is_inline := true
        content := some e.content
        src := none
        width := svgDim e.widthAttr
        height := svgDim e.heightAttr
        is_header := some pd.1
        is_footer := some pd.2.1
        is_logo := pd.2.2
        screenshot_path := e.shot }

/-- One `img[src$='.svg']` element presented to the second loop of
`extract_svgs`. -/
structure SvgImgEl where
  src : Option String
  widthAttr : Option String
  heightAttr : Option String
  geometry : Option ElementGeometry
  shot : Option String
  ok : Bool
deriving DecidableEq

/-- The record built for one SVG-via-img element: skipped when processing
raised or the `src` attribute is falsy, otherwise position flags come from
`is_header_footer_logo`. -/
def svgImgRecord (pageUrl : String) (e : SvgImgEl) : Option ScrapedSVG :=
  if !e.ok then none
  else if !attrTruthy e.src then none
  else
    let hfl := is_header_footer_logo e.geometry
    some
      { url := pageUrl
        is_inline := false
        content := none
        src := e.src
        width := svgDim e.widthAttr
        height := svgDim e.heightAttr
        is_header := hfl.1
        is_footer := hfl.2.1
        is_logo := hfl.2.2
        screenshot_path := e.shot }

/-- One `object`/`embed` element with `type='image/svg+xml'` presented to the
third loop of `extract_svgs`. -/
structure SvgObjectEl where
  dataAttr : Option String
  srcAttr : Option String
  ok : Bool
deriving DecidableEq

/-- `await obj.get_attribute("data") or await obj.get_attribute("src")`
followed by the `if not src: continue` guard. -/
def objSrc (e : SvgObjectEl) : Option String :=
  let chosen := if attrTruthy e.dataAttr then e.dataAttr else e.srcAttr
  if attrTruthy chosen then chosen else none

/-- The record built for one object/embed element: no geometry or dimension
inspection, all position flags hard-coded `False`. -/
def svgObjectRecord (pageUrl : String) (e : SvgObjectEl) : Option ScrapedSVG :=
  if !e.ok then none
  else
    match objSrc e with
    | none => none
    | some s =>
      some
        { url := pageUrl
          is_inline := false
          content := none
          src := some s
          width := none
          height := none
          is_header := some false
          is_footer := some false
          is_logo := false
          screenshot_path := none }

/-- The three element collections the driver's `query_selector_all` calls in
`extract_svgs` would return for one page. -/
structure SvgPage where
  inlines : List InlineSvgEl
  imgs : List SvgImgEl
  objects : List SvgObjectEl
deriving DecidableEq

/-- `extract_svgs(page)`: the three loops append their records to one list,
inline SVGs first, then img-tag SVGs, then object/embed SVGs. -/
def extract_svgs (pageUrl : String) (p : SvgPage) : List ScrapedSVG :=
  p.inlines.filterMap (inlineSvgRecord pageUrl) ++
    p.imgs.filterMap (svgImgRecord pageUrl) ++
    p.objects.filterMap (svgObjectRecord pageUrl)

/-- The content of one page when navigation and the element queries succeed. -/
structure PageContent where
  imgs : List ImgElement
  svgPage : SvgPage
deriving DecidableEq

/-- What happens when `extract_images` visits a page: either the page loads
and its elements are enumerated, or `goto`/`wait_for_load_state`/the queries
raise (navigation timeout, load-state wait failure, evaluation error). -/
inductive PageBehavior where
  | ok : PageContent → PageBehavior
  | fail : PageBehavior
deriving DecidableEq

/-- One URL of a crawl together with the behavior its page visit exhibits. -/
structure PageVisit where
  url : String
  behavior : PageBehavior
deriving DecidableEq

/-- The image loop of `extract_images`: every record is appended to
`all_images`; a meaningful one additionally gets a screenshot attempt (its
`screenshot_path` is set on success — the same object sits in both lists)
and is appended to `meaningful_images`. Returns
`(meaningful_images, all_images)`. -/
def processImages (pageUrl : String) :
    List ImgElement → List ScrapedImage × List ScrapedImage
  | [] => ([], [])
  | image :: rest =>
    match is_meaningful_image image pageUrl with
    | none => processImages pageUrl rest
    | some image_data =>
      let final :=
        if image_data.is_meaningful then
          { image_data with screenshot_path := image.shot }
        else image_data
      let tail := processImages pageUrl rest
      ((if final.is_meaningful then [final] else []) ++ tail.1, final :: tail.2)

/-- The Python value `extract_images` returns: the 3-tuple
`meaningful_images, all_images, svgs` on success, or the bare empty list `[]`
that the `except` branch returns after logging the page error. -/
inductive ExtractResult where
  | triple : List ScrapedImage → List ScrapedImage → List ScrapedSVG → ExtractResult
  | emptyList : ExtractResult
deriving DecidableEq

/-- `extract_images(context, url)`. -/
def extract_images (v : PageVisit) : ExtractResult :=
  match v.behavior with
  | PageBehavior.ok content =>
    let imgs := processImages v.url content.imgs
    ExtractResult.triple imgs.1 imgs.2 (extract_svgs v.url content.svgPage)
  | PageBehavior.fail => ExtractResult.emptyList

/-- The running aggregate of `crawl_links`, plus the list of URLs whose page
was actually visited (in visit order). -/
structure CrawlAgg where
  meaningful : List ScrapedImage
  images : List ScrapedImage
  svgs : List ScrapedSVG
  visited : List String
deriving DecidableEq

/-- The outcome of the crawl loop: the aggregate, and whether an uncaught
exception escaped the loop (aborting the run before any output is written;
the `finally` still closes the browser). -/
structure CrawlRun where
  agg : CrawlAgg
  aborted : Bool
deriving DecidableEq

/-- The `for i, link in enumerate(links)` body applied to the links with
`i < 10`. Each iteration calls `extract_images` and unpacks its value into
`meaningful_images, images, svgs`: unpacking the 3-tuple succeeds, while
unpacking the error-path value `[]` (length 0, not 3) raises `ValueError`,
which nothing in `crawl_links` catches — the loop stops and the run aborts. -/
def crawlGo (agg : CrawlAgg) : List PageVisit → CrawlRun
  | [] => { agg := agg, aborted := false }
  | v :: rest =>
    match extract_images v with
    | ExtractResult.triple meaningful_images images svgs =>
      crawlGo
        { meaningful := agg.meaningful ++ meaningful_images
          images := agg.images ++ images
          svgs := agg.svgs ++ svgs
          visited := agg.visited ++ [v.url] } rest
    | ExtractResult.emptyList =>
      { agg := { agg with visited := agg.visited ++ [v.url] }, aborted := true }

/-- `crawl_links(links)`: the `if i < 10 ... else break` guard makes the loop
range over exactly the first 10 links. -/
def crawl_links (links : List PageVisit) : CrawlRun :=
  crawlGo { meaningful := [], images := [], svgs := [], visited := [] }
    (links.take 10)

/-- Environment of one `authenticate()` run: whether the session artifact
file exists, the clock and the artifact's mtime (seconds, as rationals), the
configured maximum age, the outcome of the login-presence check the seeded
context would produce, and whether the fresh-login flow would succeed. -/
structure AuthEnv where
  artifactExists : Bool
  now : Rat
  mtime : Rat
  maxAge : Rat
  loginPresenceOk : Bool
  loginFlowOk : Bool
deriving DecidableEq

/-- How `authenticate()` ends. -/
inductive AuthResult where
  | seededContext : AuthResult
  | freshLoginContext : AuthResult
  | authError : AuthResult
deriving DecidableEq

/-- Observable outcome of `authenticate()`: whether a browser context was
ever created with `storage_state=AUTH_STATE_PATH`, whether the full login
flow ran, and how the call ended. -/
structure AuthOutcome where
  seededFromArtifact : Bool
  freshLoginPerformed : Bool
  result : AuthResult
deriving DecidableEq

/-- `authenticate()`: the artifact is considered valid when it exists and
`time.time() - getmtime < AUTH_MAX_AGE`; a valid artifact seeds a context
which is then validated by the login-presence predicate; every other path
runs the full login flow, whose failure propagates (after closing the
browser). -/
def authenticate (e : AuthEnv) : AuthOutcome :=
  let auth_state_valid := e.artifactExists && decide (e.now - e.mtime < e.maxAge)
  if auth_state_valid then
    if e.loginPresenceOk then
      { seededFromArtifact := true
        freshLoginPerformed := false
        result := AuthResult.seededContext }
    else if e.loginFlowOk then
      { seededFromArtifact := true
        freshLoginPerformed := true
        result := AuthResult.freshLoginContext }
    else
      { seededFromArtifact := true
        freshLoginPerformed := true
        result := AuthResult.authError }
  else if e.loginFlowOk then
    { seededFromArtifact := false
      freshLoginPerformed := true
      result := AuthResult.freshLoginContext }
  else
    { seededFromArtifact := false
      freshLoginPerformed := true
      result := AuthResult.authError }

/-- A geometry placing an element mid-page: not in the first 10% of the
viewport, not in the last 10% of the scroll height. -/
def sampleGeometry : ElementGeometry :=
  { top := 500
    bottom := 600
    left := 50
    width := 300
    height := 300
    documentHeight := 3000
    viewportHeight := 800 }

/-- A 300×300 content image of 20000 bytes sitting mid-page. -/
def sampleImg : ImgElement :=
  { src := some ("https://x/img.png")
    alt := none
    geometry := some sampleGeometry
    sizeProbe := FetchProbe.headerValue 20000
    widthAttr := some ("300")
    heightAttr := some ("300")
    shot := none }

/-- The record `is_meaningful_image` produces for `sampleImg`. -/
def sampleRecord : ScrapedImage :=
  { src := "https://x/img.png"
    url := "https://x"
    alt := none
    is_header := some false
    is_footer := some false
    is_logo := false
    file_size := some 20000
    is_large_file := true
    width := some 300
    height := some 300
    has_image_shape := true
    is_meaningful := true
    screenshot_path := none }

/-- An image element whose `src` attribute is absent. -/
def noSrcImg : ImgElement :=
  { src := none
    alt := none
    geometry := some sampleGeometry
    sizeProbe := FetchProbe.headerValue 20000
    widthAttr := some ("300")
    heightAttr := some ("300")
    shot := none }

/-- An image element whose size probe raises on the `evaluate` call itself. -/
def evalFailImg : ImgElement :=
  { src := some ("https://x/a.png")
    alt := none
    geometry := some sampleGeometry
    sizeProbe := FetchProbe.evalFail
    widthAttr := some ("300")
    heightAttr := some ("300")
    shot := none }

/-- A page holding just `sampleImg` and no SVGs. -/
def okPage : PageContent :=
  { imgs := [sampleImg]
    svgPage := { inlines := [], imgs := [], objects := [] } }

/-- A visit whose page processing fails (e.g. a navigation timeout). -/
def failVisit : PageVisit :=
  { url := "https://fail.example", behavior := PageBehavior.fail }

/-- A visit whose page loads normally. -/
def okVisit : PageVisit :=
  { url := "https://ok.example", behavior := PageBehavior.ok okPage }

/-- A crawl input of twelve well-behaved visits with distinct URLs. -/
def twelveLinks : List PageVisit :=
  [{ url := "u01", behavior := PageBehavior.ok okPage },
   { url := "u02", behavior := PageBehavior.ok okPage },
   { url := "u03", behavior := PageBehavior.ok okPage },
   { url := "u04", behavior := PageBehavior.ok okPage },
   { url := "u05", behavior := PageBehavior.ok okPage },
   { url := "u06", behavior := PageBehavior.ok okPage },
   { url := "u07", behavior := PageBehavior.ok okPage },
   { url := "u08", behavior := PageBehavior.ok okPage },
   { url := "u09", behavior := PageBehavior.ok okPage },
   { url := "u10", behavior := PageBehavior.ok okPage },
   { url := "u11", behavior := PageBehavior.ok okPage },
   { url := "u12", behavior := PageBehavior.ok okPage }]

/-- A crawl input of twelve visits whose first page fails. -/
def cexLinks : List PageVisit :=
  failVisit ::
    [{ url := "u02", behavior := PageBehavior.ok okPage },
     { url := "u03", behavior := PageBehavior.ok okPage },
     { url := "u04", behavior := PageBehavior.ok okPage },
     { url := "u05", behavior := PageBehavior.ok okPage },
     { url := "u06", behavior := PageBehavior.ok okPage },
     { url := "u07", behavior := PageBehavior.ok okPage },
     { url := "u08", behavior := PageBehavior.ok okPage },
     { url := "u09", behavior := PageBehavior.ok okPage },
     { url := "u10", behavior := PageBehavior.ok okPage },
     { url := "u11", behavior := PageBehavior.ok okPage },
     { url := "u12", behavior := PageBehavior.ok okPage }]

/-- The record `is_meaningful_image` produces for `evalFailImg`: note the
`file_size` of `None`. -/
def evalFailRecord : ScrapedImage :=
  { src := "https://x/a.png"
    url := "https://x"
    alt := none
    is_header := some false
    is_footer := some false
    is_logo := false
    file_size := none
    is_large_file := false
    width := some 300
    height := some 300
    has_image_shape := true
    is_meaningful := false
    screenshot_path := none }

/-- An authenticate environment whose artifact is exactly twice the maximum
age. -/
def staleEnv : AuthEnv :=
  { artifactExists := true
    now := 7200
    mtime := 0
    maxAge := 3600
    loginPresenceOk := true
    loginFlowOk := true }

/-- An inline SVG element sitting mid-page whose processing succeeds. -/
def sampleInlineSvg : InlineSvgEl :=
  { widthAttr := none
    heightAttr := none
    content := "<svg></svg>"
    geometry := sampleGeometry
    shot := none
    ok := true }

/-- A page carrying a single inline SVG and nothing else. -/
def sampleSvgPage : SvgPage :=
  { inlines := [sampleInlineSvg], imgs := [], objects := [] }

/-- The record `extract_svgs` produces for `sampleInlineSvg`. -/
def sampleSvgRecord : ScrapedSVG :=
  { url := "https://x"
    is_inline := true
    content := some ("<svg></svg>")
    src := none
    width := none
    height := none
    is_header := some false
    is_footer := some false
    is_logo := false
    screenshot_path := none }

theorem sampleGeometry_top : isTopSection sampleGeometry = false := by
  simp only [isTopSection, sampleGeometry]
  norm_num

theorem sampleGeometry_bottom : isBottomSection sampleGeometry = false := by
  simp only [isBottomSection, sampleGeometry]
  norm_num

theorem sampleGeometry_hfl :
    is_header_footer_logo (some sampleGeometry) = (some false, some false, false) := by
  simp [is_header_footer_logo, sampleGeometry_top, sampleGeometry_bottom]

theorem check_image_size_300 :
    check_image_size (some ("300")) (some ("300")) = (some 300, some 300, true) := by
  decide

theorem sampleImg_record :
    is_meaningful_image sampleImg ("https://x") = some sampleRecord := by
  simp [is_meaningful_image, sampleImg, sampleRecord, sampleGeometry_hfl,
    check_image_size_300, check_file_image_size, jsProbeSize, attrTruthy]

theorem evalFailImg_record :
    is_meaningful_image evalFailImg ("https://x") = some evalFailRecord := by
  simp [is_meaningful_image, evalFailImg, evalFailRecord, sampleGeometry_hfl,
    check_image_size_300, check_file_image_size, jsProbeSize, attrTruthy]

/-- C1: every record produced by `is_meaningful_image` has
`is_meaningful = (not is_logo) and is_large_file and has_image_shape`; the
field is computed from exactly those three flags of the same record. -/
theorem is_meaningful_eq_conjunction (image : ImgElement) (pageUrl : String)
    (r : ScrapedImage) (h : is_meaningful_image image pageUrl = some r) :
    r.is_meaningful = (!r.is_logo && r.is_large_file && r.has_image_shape) := by
  unfold is_meaningful_image at h
  split at h
  · exact absurd h (by simp)
  · simp only [Option.some.injEq] at h
    subst h
    rfl

/-- C1 witness: the conjunction evaluated on a concrete classified image. -/
theorem is_meaningful_eq_conjunction_witness :
    is_meaningful_image sampleImg ("https://x") = some sampleRecord ∧
      sampleRecord.is_meaningful =
        (!sampleRecord.is_logo && sampleRecord.is_large_file &&
          sampleRecord.has_image_shape) :=
  ⟨sampleImg_record,
    is_meaningful_eq_conjunction sampleImg ("https://x") sampleRecord
      sampleImg_record⟩

/-- C6: for a probe whose header declares `n` bytes, `is_large_file` holds
iff `n` strictly exceeds 10240. -/
theorem is_large_file_iff_gt_10240 (n : Int) :
    (check_file_image_size (FetchProbe.headerValue n)).2 = true ↔ 10240 < n := by
  simp [check_file_image_size, jsProbeSize]

/-- C6 witness: 10241 bytes is large, exactly 10240 bytes is not. -/
theorem is_large_file_iff_gt_10240_witness :
    (check_file_image_size (FetchProbe.headerValue 10241)).2 = true ∧
      (check_file_image_size (FetchProbe.headerValue 10240)).2 = false :=
  ⟨(is_large_file_iff_gt_10240 10241).mpr (by decide), by rfl⟩

/-- C7: an image element whose `src` attribute is absent or empty is skipped
by `is_meaningful_image` — no record of any kind is returned. -/
theorem no_src_skipped (image : ImgElement) (pageUrl : String)
    (h : image.src = none ∨ image.src = some ("")) :
    is_meaningful_image image pageUrl = none := by
  rcases h with h | h <;> simp [is_meaningful_image, attrTruthy, h]

/-- C7 witness: the skip evaluated on a concrete src-less element. -/
theorem no_src_skipped_witness :
    is_meaningful_image noSrcImg ("https://x") = none :=
  no_src_skipped noSrcImg ("https://x") (Or.inl rfl)

/-- C10: when the geometry probe succeeds, the record's zone flags are the
top/bottom section tests and `is_logo` is exactly their disjunction — no
size or top-left test enters the raster-image logo decision. -/
theorem raster_logo_iff_header_or_footer (image : ImgElement)
    (g : ElementGeometry) (pageUrl : String) (r : ScrapedImage)
    (hg : image.geometry = some g)
    (h : is_meaningful_image image pageUrl = some r) :
    r.is_header = some (isTopSection g) ∧
      r.is_footer = some (isBottomSection g) ∧
      r.is_logo = (isTopSection g || isBottomSection g) := by
  unfold is_meaningful_image at h
  split at h
  · exact absurd h (by simp)
  · simp only [Option.some.injEq] at h
    subst h
    simp only [is_header_footer_logo, hg]
    cases htb : (isTopSection g || isBottomSection g) <;> simp_all

/-- C10 witness: the zone flags and logo flag of a concrete mid-page image. -/
theorem raster_logo_iff_header_or_footer_witness :
    sampleRecord.is_header = some (isTopSection sampleGeometry) ∧
      sampleRecord.is_footer = some (isBottomSection sampleGeometry) ∧
      sampleRecord.is_logo =
        (isTopSection sampleGeometry || isBottomSection sampleGeometry) :=
  raster_logo_iff_header_or_footer sampleImg sampleGeometry ("https://x")
    sampleRecord rfl sampleImg_record

/-- C3: an existing session artifact whose age reaches or exceeds the
configured maximum is never used to seed a browser context; the full login
flow runs instead. -/
theorem stale_artifact_never_reused (e : AuthEnv)
    (hex : e.artifactExists = true) (hage : e.maxAge ≤ e.now - e.mtime) :
    (authenticate e).seededFromArtifact = false ∧
      (authenticate e).freshLoginPerformed = true := by
  have hd : decide (e.now - e.mtime < e.maxAge) = false := by
    simp only [decide_eq_false_iff_not, not_lt]
    exact hage
  unfold authenticate
  rw [hex, hd]
  by_cases hl : e.loginFlowOk = true <;> simp [hl]

/-- C3 witness: an artifact at twice the maximum age triggers a fresh login. -/
theorem stale_artifact_never_reused_witness :
    (authenticate staleEnv).seededFromArtifact = false ∧
      (authenticate staleEnv).freshLoginPerformed = true :=
  stale_artifact_never_reused staleEnv rfl (by norm_num [staleEnv])

/-- C4 (code bug): the in-page probe maps an absent `Content-Length` and an
in-page fetch failure to size 0, but when the `evaluate` call itself raises,
`check_file_image_size` returns `(None, False)` and the record's `file_size`
is `None` — not 0 as the spec and the dataclass's `int` annotation state. -/
theorem probe_failure_file_size :
    check_file_image_size FetchProbe.headerAbsent = (some 0, false) ∧
      check_file_image_size FetchProbe.fetchFail = (some 0, false) ∧
      check_file_image_size FetchProbe.evalFail = (none, false) ∧
      is_meaningful_image evalFailImg ("https://x") = some evalFailRecord ∧
      evalFailRecord.file_size = none :=
  ⟨rfl, rfl, rfl, evalFailImg_record, rfl⟩

/-- C2 (code bug): a failing page visit makes `extract_images` return the
bare list `[]`; unpacking it into `meaningful_images, images, svgs` raises
`ValueError`, so the crawl aborts with nothing aggregated instead of
continuing to the next URL — the second URL of the run is never visited,
although a crawl whose first page succeeds does reach it. -/
theorem page_failure_aborts_crawl :
    extract_images failVisit = ExtractResult.emptyList ∧
      (crawl_links [failVisit, okVisit]).aborted = true ∧
      (crawl_links [failVisit, okVisit]).agg.visited = [failVisit.url] ∧
      (crawl_links [failVisit, okVisit]).agg.meaningful = [] ∧
      (crawl_links [failVisit, okVisit]).agg.images = [] ∧
      (crawl_links [failVisit, okVisit]).agg.svgs = [] ∧
      (crawl_links [okVisit, okVisit]).aborted = false ∧
      (crawl_links [okVisit, okVisit]).agg.visited = [okVisit.url, okVisit.url] :=
  ⟨rfl, rfl, rfl, rfl, rfl, rfl, rfl, rfl⟩

theorem attrTruthy_eq_false_iff (s : Option String) :
    attrTruthy s = false ↔ s = none ∨ s = some ("") := by
  cases s with
  | none => simp [attrTruthy]
  | some t => simp [attrTruthy]

theorem attrTruthy_isSome (s : Option String) (h : attrTruthy s = true) :
    (s).isSome = true := by
  cases s with
  | none => exact absurd h (by simp [attrTruthy])
  | some t => rfl

theorem pyInt_empty : pyInt ("") = none := by decide

theorem check_image_size_eval_pos (ws hs : String) (w hv : Int)
    (hwa : attrTruthy (some ws) = true) (hha : attrTruthy (some hs) = true)
    (hpw : pyInt ws = some w) (hph : pyInt hs = some hv)
    (h1 : 100 < w) (h2 : 100 < hv) :
    check_image_size (some ws) (some hs) = (some w, some hv, true) := by
  rw [check_image_size]
  simp [hwa, hha, hpw, hph, h1, h2]

theorem check_image_size_eval_small (ws hs : String) (w hv : Int)
    (hwa : attrTruthy (some ws) = true) (hha : attrTruthy (some hs) = true)
    (hpw : pyInt ws = some w) (hph : pyInt hs = some hv)
    (hcmp : ¬(100 < w ∧ 100 < hv)) :
    check_image_size (some ws) (some hs) = (none, none, false) := by
  rw [check_image_size]
  have hguard : (decide (w > 100) && decide (hv > 100)) = false := by
    rcases not_and_or.1 hcmp with hc | hc <;> simp [hc]
  simp [hwa, hha, hpw, hph, hguard]

theorem check_image_size_eval_noparse_left (ws hs : String)
    (hwa : attrTruthy (some ws) = true) (hha : attrTruthy (some hs) = true)
    (hpw : pyInt ws = none) :
    check_image_size (some ws) (some hs) = (none, none, false) := by
  rw [check_image_size]
  simp [hwa, hha, hpw]

theorem check_image_size_eval_noparse_right (ws hs : String) (w : Int)
    (hwa : attrTruthy (some ws) = true) (hha : attrTruthy (some hs) = true)
    (hpw : pyInt ws = some w) (hph : pyInt hs = none) :
    check_image_size (some ws) (some hs) = (none, none, false) := by
  rw [check_image_size]
  simp [hwa, hha, hpw, hph]

theorem check_image_size_eval_untruthy (wa ha : Option String)
    (h : attrTruthy wa = false ∨ attrTruthy ha = false) :
    check_image_size wa ha = (none, none, false) := by
  rw [check_image_size]
  rcases h with h | h <;> simp [h]

theorem untruthy_no_parse (s : Option String) (hs : attrTruthy s = false)
    (t : String) (ht : s = some t) : pyInt t = none := by
  rcases (attrTruthy_eq_false_iff s).1 hs with hn | hn
  · rw [hn] at ht
    cases ht
  · rw [hn, Option.some.injEq] at ht
    subst ht
    exact pyInt_empty

theorem check_image_size_spec (wa ha : Option String) :
    ((check_image_size wa ha).2.2 = true ↔
      ∃ ws hs w hv, wa = some ws ∧ ha = some hs ∧
        pyInt ws = some w ∧ pyInt hs = some hv ∧ 100 < w ∧ 100 < hv) ∧
    ((check_image_size wa ha).2.2 = false →
      (check_image_size wa ha).1 = none ∧ (check_image_size wa ha).2.1 = none) := by
  by_cases hwa : attrTruthy wa = true
  · by_cases hha : attrTruthy ha = true
    · obtain ⟨ws, rfl⟩ : ∃ ws, wa = some ws := by
        cases wa with
        | none => exact absurd hwa (by simp [attrTruthy])
        | some t => exact ⟨t, rfl⟩
      obtain ⟨hs, rfl⟩ : ∃ hs, ha = some hs := by
        cases ha with
        | none => exact absurd hha (by simp [attrTruthy])
        | some t => exact ⟨t, rfl⟩
      cases hpw : pyInt ws with
      | none =>
        rw [check_image_size_eval_noparse_left ws hs hwa hha hpw]
        refine ⟨⟨fun hT => absurd hT (by decide), ?_⟩, fun _ => ⟨rfl, rfl⟩⟩
        rintro ⟨ws', hs', w', hv', hws', hhs', hpw', _, _, _⟩
        rw [Option.some.injEq] at hws'
        subst hws'
        rw [hpw] at hpw'
        cases hpw'
      | some w =>
        cases hph : pyInt hs with
        | none =>
          rw [check_image_size_eval_noparse_right ws hs w hwa hha hpw hph]
          refine ⟨⟨fun hT => absurd hT (by decide), ?_⟩, fun _ => ⟨rfl, rfl⟩⟩
          rintro ⟨ws', hs', w', hv', hws', hhs', _, hph', _, _⟩
          rw [Option.some.injEq] at hhs'
          subst hhs'
          rw [hph] at hph'
          cases hph'
        | some hv =>
          by_cases hcmp : (100 : Int) < w ∧ (100 : Int) < hv
          · rw [check_image_size_eval_pos ws hs w hv hwa hha hpw hph hcmp.1 hcmp.2]
            refine ⟨⟨fun _ => ⟨ws, hs, w, hv, rfl, rfl, hpw, hph, hcmp.1, hcmp.2⟩, fun _ => rfl⟩, ?_⟩
            intro hfalse
            exact Bool.noConfusion hfalse
          · rw [check_image_size_eval_small ws hs w hv hwa hha hpw hph hcmp]
            refine ⟨⟨fun hT => absurd hT (by decide), ?_⟩, fun _ => ⟨rfl, rfl⟩⟩
            rintro ⟨ws', hs', w', hv', hws', hhs', hpw', hph', hw', hh'⟩
            rw [Option.some.injEq] at hws' hhs'
            subst hws'
            subst hhs'
            rw [hpw, Option.some.injEq] at hpw'
            rw [hph, Option.some.injEq] at hph'
            subst hpw'
            subst hph'
            exact absurd ⟨hw', hh'⟩ hcmp
    · have hfalse : attrTruthy ha = false := by
        cases hv : attrTruthy ha
        · rfl
        · exact absurd hv hha
      rw [check_image_size_eval_untruthy wa ha (Or.inr hfalse)]
      refine ⟨⟨fun hT => absurd hT (by decide), ?_⟩, fun _ => ⟨rfl, rfl⟩⟩
      rintro ⟨ws', hs', w', hv', _, hhs', _, hph', _, _⟩
      rw [untruthy_no_parse ha hfalse hs' hhs'] at hph'
      cases hph'
  · have hfalse : attrTruthy wa = false := by
      cases hv : attrTruthy wa
      · rfl
      · exact absurd hv hwa
    rw [check_image_size_eval_untruthy wa ha (Or.inl hfalse)]
    refine ⟨⟨fun hT => absurd hT (by decide), ?_⟩, fun _ => ⟨rfl, rfl⟩⟩
    rintro ⟨ws', hs', w', hv', hws', _, hpw', _, _, _⟩
    rw [untruthy_no_parse wa hfalse ws' hws'] at hpw'
    cases hpw'

/-- C5: a classified record has `has_image_shape` true iff both declared
dimension attributes are present, parse under `int()`, and each strictly
exceeds 100; whenever the flag is false the record's `width` and `height`
are both `None`. -/
theorem has_image_shape_iff (image : ImgElement) (pageUrl : String)
    (r : ScrapedImage) (h : is_meaningful_image image pageUrl = some r) :
    (r.has_image_shape = true ↔
      ∃ ws hs w hv, image.widthAttr = some ws ∧ image.heightAttr = some hs ∧
        pyInt ws = some w ∧ pyInt hs = some hv ∧ 100 < w ∧ 100 < hv) ∧
    (r.has_image_shape = false → r.width = none ∧ r.height = none) := by
  unfold is_meaningful_image at h
  split at h
  · exact absurd h (by simp)
  · simp only [Option.some.injEq] at h
    subst h
    exact check_image_size_spec image.widthAttr image.heightAttr

/-- C5 witness: the 300×300 sample image has the shape flag. -/
theorem has_image_shape_iff_witness : sampleRecord.has_image_shape = true :=
  (has_image_shape_iff sampleImg ("https://x") sampleRecord sampleImg_record).1.mpr
    ⟨"300", "300", 300, 300, rfl, rfl, by decide, by decide, by decide, by decide⟩

theorem crawlGo_ok (vs : List PageVisit) :
    ∀ agg : CrawlAgg, (∀ v ∈ vs, v.behavior ≠ PageBehavior.fail) →
      (crawlGo agg vs).aborted = false ∧
        (crawlGo agg vs).agg.visited = agg.visited ++ vs.map PageVisit.url := by
  induction vs with
  | nil =>
    intro agg _
    exact ⟨rfl, by simp [crawlGo]⟩
  | cons v rest ih =>
    intro agg h
    obtain ⟨c, hc⟩ : ∃ c, v.behavior = PageBehavior.ok c := by
      cases hb : v.behavior with
      | ok c => exact ⟨c, rfl⟩
      | fail => exact absurd hb (h v (by simp))
    have hrest : ∀ u ∈ rest, u.behavior ≠ PageBehavior.fail :=
      fun u hu => h u (List.mem_cons_of_mem v hu)
    rw [crawlGo, extract_images, hc]
    refine ⟨(ih _ hrest).1, ?_⟩
    rw [(ih _ hrest).2]
    simp

/-- C8 (amended): provided each of the first `min(length, 10)` page visits
completes without a page-level error, the crawl visits exactly the first
`min(length, 10)` URLs, in the order given, and ignores any further URLs. -/
theorem crawl_processes_first_ten (links : List PageVisit)
    (h : ∀ v ∈ links.take 10, v.behavior ≠ PageBehavior.fail) :
    (crawl_links links).aborted = false ∧
      (crawl_links links).agg.visited = (links.map PageVisit.url).take 10 ∧
      (crawl_links links).agg.visited.length = min links.length 10 := by
  have hgo := crawlGo_ok (links.take 10)
    { meaningful := [], images := [], svgs := [], visited := [] } h
  rw [crawl_links]
  refine ⟨hgo.1, ?_, ?_⟩
  · rw [hgo.2]
    simp [List.map_take]
  · rw [hgo.2]
    simp [List.length_take]
    omega

/-- C8 counterexample: on a 12-URL crawl whose first page visit fails, the
run aborts after the first URL, so the visited list is not the first ten
URLs of the input. -/
theorem crawl_first_ten_cex :
    ¬((crawl_links cexLinks).agg.visited =
        ((cexLinks.map PageVisit.url).take 10)) := by
  decide

/-- C8 witness: twelve well-behaved links yield exactly the first ten URLs
in order. -/
theorem crawl_processes_first_ten_witness :
    (crawl_links twelveLinks).aborted = false ∧
      (crawl_links twelveLinks).agg.visited =
        ["u01", "u02", "u03", "u04", "u05", "u06", "u07", "u08", "u09", "u10"] := by
  have h := crawl_processes_first_ten twelveLinks (by decide)
  refine ⟨h.1, ?_⟩
  rw [h.2.1]
  rfl

theorem svgPositionData_sample :
    svgPositionData sampleGeometry = (false, false, false) := by
  simp only [svgPositionData, sampleGeometry]
  norm_num

theorem sampleSvgPage_records :
    extract_svgs ("https://x") sampleSvgPage = [sampleSvgRecord] := by
  simp [extract_svgs, sampleSvgPage, inlineSvgRecord, sampleInlineSvg,
    svgPositionData_sample, sampleSvgRecord, svgDim]

/-- C9: every vector-graphic record built by `extract_svgs` has exactly one
of `content`/`src` populated, matching `is_inline`: inline records carry
content and no src, non-inline records carry a src and no content. -/
theorem svg_content_src_exclusive (pageUrl : String) (p : SvgPage)
    (r : ScrapedSVG) (h : r ∈ extract_svgs pageUrl p) :
    (r.is_inline = true → (r.content).isSome = true ∧ r.src = none) ∧
      (r.is_inline = false → (r.src).isSome = true ∧ r.content = none) := by
  unfold extract_svgs at h
  rcases List.mem_append.1 h with h | h
  · rcases List.mem_append.1 h with h | h
    · obtain ⟨e, _, he⟩ := List.mem_filterMap.1 h
      by_cases hok : e.ok
      · rw [inlineSvgRecord] at he
        simp only [hok, Bool.not_true, Bool.false_eq_true, if_false,
          Option.some.injEq] at he
        subst he
        exact ⟨fun _ => ⟨rfl, rfl⟩, fun hfalse => Bool.noConfusion hfalse⟩
      · rw [inlineSvgRecord] at he
        simp [hok] at he
    · obtain ⟨e, _, he⟩ := List.mem_filterMap.1 h
      by_cases hok : e.ok
      · by_cases hsrc : attrTruthy e.src = true
        · rw [svgImgRecord] at he
          simp only [hok, hsrc, Bool.not_true, Bool.false_eq_true, if_false,
            Option.some.injEq] at he
          subst he
          refine ⟨fun hfalse => Bool.noConfusion hfalse, fun _ => ⟨?_, rfl⟩⟩
          exact attrTruthy_isSome e.src hsrc
        · rw [svgImgRecord] at he
          simp [hok, hsrc] at he
      · rw [svgImgRecord] at he
        simp [hok] at he
  · obtain ⟨e, _, he⟩ := List.mem_filterMap.1 h
    by_cases hok : e.ok
    · cases hsrc : objSrc e with
      | none =>
        rw [svgObjectRecord] at he
        simp [hok, hsrc] at he
      | some s =>
        rw [svgObjectRecord] at he
        simp only [hok, hsrc, Bool.not_true, Bool.false_eq_true, if_false,
          Option.some.injEq] at he
        subst he
        exact ⟨fun hfalse => Bool.noConfusion hfalse, fun _ => ⟨rfl, rfl⟩⟩
    · rw [svgObjectRecord] at he
      simp [hok] at he

/-- C9 witness: the exclusivity evaluated on a concrete inline-SVG record. -/
theorem svg_content_src_exclusive_witness :
    (sampleSvgRecord.content).isSome = true ∧ sampleSvgRecord.src = none :=
  (svg_content_src_exclusive ("https://x") sampleSvgPage sampleSvgRecord
    (by rw [sampleSvgPage_records]; exact List.mem_singleton.2 rfl)).1 rfl

end PWScrap
